import Mathlib

/-!
Verification of the UEBA streaming ensemble anomaly-scoring and alerting
engine.  The definitions below are shallow embeddings of the Python sources:

* `ml_alerting_system.py` — `_calculate_risk_score`, `_get_severity_level`,
  the alert-creation loop of `check_ml_anomalies`;
* `realtime_ml_inference.py` — `_engineer_features_single_record`,
  `_prepare_feature_vector`, `score_record`, the per-event watermark update
  of `monitor_new_logs`;
* `realtime_ml_monitor.py` — `engineer_features`, `predict_anomaly`;
* `advanced_ml_detector.py` — the LOF branch of `create_ensemble_score`.

Numeric scores are modelled as rationals, Python dicts with optional keys as
structures of `Option` fields, exceptions as `Except`/sum types, and the two
sources of run-to-run variation (`random.uniform(0, 0.4)` and the wall
clock `datetime.now()`) as explicit extra arguments.
-/

/-- Case-sensitive check that `pat` occurs at the start of `hay`
(character lists). -/
def charsStartWith : List Char → List Char → Bool
  | [], _ => true
  | _ :: _, [] => false
  | p :: ps, h :: hs => (p = h) && charsStartWith ps hs

/-- Case-sensitive check that `pat` occurs somewhere inside `hay`
(character lists); Python's `pat in hay`. -/
def charsContain (pat : List Char) : List Char → Bool
  | [] => charsStartWith pat []
  | h :: hs => charsStartWith pat (h :: hs) || charsContain pat hs

/-- Python's substring containment `pat in hay` on strings. -/
def containsSub (hay pat : String) : Bool :=
  charsContain pat.toList hay.toList

/-- Python's `str.lower()`, written out over the character list. -/
def pyLower (s : String) : String := String.mk (s.toList.map Char.toLower)

/-! ## ml_alerting_system.py -/

/-- The four alert thresholds of `MLAlertingSystem.alert_thresholds`. -/
structure AlertThresholds where
  critical : ℚ
  high : ℚ
  medium : ℚ
  low : ℚ

/-- The constructor defaults: CRITICAL 0.9, HIGH 0.7, MEDIUM 0.5, LOW 0.3. -/
def defaultThresholds : AlertThresholds :=
  { critical := 9/10, high := 7/10, medium := 1/2, low := 3/10 }

/-- An event as read by `_calculate_risk_score` / `check_ml_anomalies`:
a dict whose fields may be absent (`event.get` with defaults). -/
structure AlertEvent where
  url : Option String
  userAgent : Option String
  method : Option String
  statusCode : Option Int

/-- The URL attack-signature patterns of `_calculate_risk_score`. -/
def urlRiskPatterns : List String :=
  ["script", "alert", "union", "select", "../"]

/-- The user-agent tool patterns of `_calculate_risk_score`. -/
def uaRiskPatterns : List String :=
  ["curl", "wget", "sqlmap", "nikto"]

/-- `MLAlertingSystem._calculate_risk_score`.  The call
`random.uniform(0, 0.4)` is modelled by the explicit draw `r`; the caller
obtains `r` from the runtime's RNG, so two runs may pass different values. -/
def calcRiskScore (e : AlertEvent) (r : ℚ) : ℚ :=
  let url := pyLower (e.url.getD "")
  let ua := pyLower (e.userAgent.getD "")
  let method := e.method.getD "GET"
  let status := e.statusCode.getD 200
  let s1 : ℚ := if urlRiskPatterns.any (fun p => containsSub url p) then 3/10 else 0
  let s2 : ℚ := if uaRiskPatterns.any (fun p => containsSub ua p) then 2/10 else 0
  let s3 : ℚ := if method = "PUT" ∨ method = "DELETE" ∨ method = "PATCH" then 1/10 else 0
  let s4 : ℚ := if 400 ≤ status then 1/10 else 0
  min (s1 + s2 + s3 + s4 + r) 1

/-- `MLAlertingSystem._get_severity_level`: ordered threshold tests, the
final `else` returning LOW. -/
def getSeverityLevel (t : AlertThresholds) (riskScore : ℚ) : String :=
  if t.critical ≤ riskScore then "CRITICAL"
  else if t.high ≤ riskScore then "HIGH"
  else if t.medium ≤ riskScore then "MEDIUM"
  else "LOW"

/-- The body of the `check_ml_anomalies` loop for one event: an anomaly
record (risk score and severity) is created only when the risk score
reaches the MEDIUM threshold. -/
def alertBody (t : AlertThresholds) (er : AlertEvent × ℚ) : Option (ℚ × String) :=
  let risk := calcRiskScore er.1 er.2
  if t.medium ≤ risk then some (risk, getSeverityLevel t risk) else none

/-- `MLAlertingSystem.check_ml_anomalies` restricted to its per-event loop:
each event is scored (with its random draw) and kept only above the MEDIUM
threshold. -/
def checkMlAnomalies (t : AlertThresholds) (events : List (AlertEvent × ℚ)) :
    List (ℚ × String) :=
  events.filterMap (alertBody t)

/-! ## realtime_ml_inference.py -/

/-- A log record as consumed by `RealTimeMLInference`: every field of the
source dict may be absent.  The event timestamp is modelled as a natural
number time point. -/
structure InfRecord where
  method : Option String
  url : Option String
  urlPath : Option String
  status : Option ℚ
  size : Option ℚ
  riskScore : Option ℚ
  responseTime : Option ℚ
  timestamp : Option Nat
  clientIp : Option String
  statusCode : Option String

/-- The method vocabulary of `_engineer_features_single_record`:
`map({GET:0, POST:1, PUT:2, DELETE:3, HEAD:4, OPTIONS:5}).fillna(6)`. -/
def encodeMethod (m : String) : ℚ :=
  if m = "GET" then 0
  else if m = "POST" then 1
  else if m = "PUT" then 2
  else if m = "DELETE" then 3
  else if m = "HEAD" then 4
  else if m = "OPTIONS" then 5
  else 6

/-- The four URL lexical features of `_engineer_features_single_record`
(`url_length`, `has_script`, `has_sql`, `has_traversal`); the containment
checks are case-insensitive (`case=False`). -/
def urlFeatures (u : String) : ℚ × ℚ × ℚ × ℚ :=
  let l := pyLower u
  (u.length,
   if containsSub l "<script>" then 1 else 0,
   if containsSub l "\x27" || containsSub l "--" || containsSub l "union"
      || containsSub l "select" then 1 else 0,
   if containsSub l "../" then 1 else 0)

/-- `RealTimeMLInference._engineer_features_single_record` with the fallback
feature set (no `feature_columns` artifact loaded).  When the record has no
`method` key, `df.get('method', 'GET')` returns the plain string `'GET'`,
whose `.map` call raises `AttributeError`; this is modelled by the error
branch. -/
def engineerFeaturesSingleRecord (r : InfRecord) : Except String (List ℚ) :=
  match r.method with
  | none => .error "AttributeError: str object has no attribute map"
  | some m =>
    let me := encodeMethod m
    let uf :=
      match r.url with
      | some u => urlFeatures u
      | none =>
        match r.urlPath with
        | some u => urlFeatures u
        | none => (0, 0, 0, 0)
    .ok [r.status.getD 0, r.size.getD 0, r.riskScore.getD 0,
         r.responseTime.getD 0, me, uf.1, uf.2.1, uf.2.2.1, uf.2.2.2]

/-- A loaded scaler artifact: `transform` may raise (shape mismatch). -/
abbrev Scaler := List ℚ → Except String (List ℚ)

/-- `RealTimeMLInference._prepare_feature_vector`: engineer the features,
then apply the optimized scaler when one is loaded. -/
def prepareFeatureVector (sc : Option Scaler) (r : InfRecord) :
    Except String (List ℚ) :=
  match engineerFeaturesSingleRecord r with
  | .error e => .error e
  | .ok df =>
    match sc with
    | some f => f df
    | none => .ok df

/-- One call of a loaded isolation-forest or one-class-SVM artifact:
`predict`/`decision_function` either return a label and a decision value or
raise. -/
inductive ModelResult where
  | ok (pred : Int) (dec : ℚ)
  | throw (msg : String)

/-- A loaded LOF artifact in `score_record`: the code probes
`hasattr(model, 'predict')`; without the attribute the prediction defaults
to `-1`, with it the `predict` call may still raise (handled by the inner
`try`). -/
inductive LofModel where
  | predictable (f : List ℚ → Except String Int)
  | unpredictable

/-- The optimized model artifacts `RealTimeMLInference` may have loaded. -/
structure InfModels where
  isolationForest : Option (List ℚ → ModelResult)
  oneClassSvm : Option (List ℚ → ModelResult)
  lofDetector : Option LofModel

/-- The LOF branch of `score_record`: the inner `try` maps a raising
`predict` to prediction `0`, score `1.0`; otherwise prediction is
`1 if pred == -1 else 0` and score `-1.0 if pred == -1 else 1.0`. -/
def lofBranch (lm : LofModel) (fv : List ℚ) : Int × ℚ :=
  match lm with
  | .unpredictable => (1, -1)
  | .predictable f =>
    match f fv with
    | .ok p => (if p = -1 then 1 else 0, if p = -1 then -1 else 1)
    | .error _ => (0, 1)

/-- The entries one optional isolation-forest / one-class-SVM branch of
`score_record` contributes under `name`: nothing when the model is not
loaded, an aborting exception when it raises. -/
def namedBranch (name : String) (om : Option (List ℚ → ModelResult))
    (fv : List ℚ) : Except String (List (String × Int) × List (String × ℚ)) :=
  match om with
  | none => .ok ([], [])
  | some f =>
    match f fv with
    | .throw e => .error e
    | .ok p s => .ok ([(name, if p = -1 then 1 else 0)], [(name, s)])

/-- The detector loop of `score_record`: isolation forest, then one-class
SVM (either raising aborts the whole `try`), then the LOF workaround; the
result pairs the `predictions` and `scores` dict entries in insertion
order. -/
def scoreRecordCore (m : InfModels) (sc : Option Scaler) (r : InfRecord) :
    Except String (List (String × Int) × List (String × ℚ)) :=
  match prepareFeatureVector sc r with
  | .error e => .error e
  | .ok fv =>
    match namedBranch "isolation_forest" m.isolationForest fv with
    | .error e => .error e
    | .ok acc1 =>
      match namedBranch "one_class_svm" m.oneClassSvm fv with
      | .error e => .error e
      | .ok acc2 =>
        match m.lofDetector with
        | none => .ok (acc1.1 ++ acc2.1, acc1.2 ++ acc2.2)
        | some lm =>
          let ps := lofBranch lm fv
          .ok (acc1.1 ++ acc2.1 ++ [("lof_detector", ps.1)],
               acc1.2 ++ acc2.2 ++ [("lof_detector", ps.2)])

/-- The normal result dict of `score_record`. -/
structure ScoreResult where
  timestamp : Nat
  clientIp : String
  urlPath : String
  statusCode : String
  isAnomaly : Bool
  ensembleScore : ℚ
  riskLevel : String
  individualPredictions : List (String × Int)
  individualScores : List (String × ℚ)
deriving DecidableEq

/-- What `score_record` returns: the normal result dict, or — when the
enclosing `try` catches any exception — the dict
`{'error': ..., 'timestamp': ...}`. -/
inductive ScoreOutcome where
  | ok (res : ScoreResult)
  | err (msg : String) (timestamp : Nat)
deriving DecidableEq

/-- The risk-level bands of `score_record` (strict comparisons in the
source: `> 0.8`, `> 0.6`, `> 0.3`). -/
def inferenceRiskLevel (ensembleScore : ℚ) : String :=
  if ensembleScore > 8/10 then "CRITICAL"
  else if ensembleScore > 6/10 then "HIGH"
  else if ensembleScore > 3/10 then "MEDIUM"
  else "LOW"

/-- `RealTimeMLInference.score_record`.  `now` is the wall clock used by the
`datetime.now()` fallback for a missing `@timestamp`. -/
def scoreRecord (m : InfModels) (sc : Option Scaler) (r : InfRecord)
    (now : Nat) : ScoreOutcome :=
  match scoreRecordCore m sc r with
  | .error e => .err ("Scoring failed: " ++ e) (r.timestamp.getD now)
  | .ok (preds, scores) =>
    let ensembleScore : ℚ :=
      if preds.length = 0 then 0
      else ((preds.map Prod.snd).sum : ℚ) / (preds.length : ℚ)
    .ok { timestamp := r.timestamp.getD now
          clientIp := r.clientIp.getD "unknown"
          urlPath := r.urlPath.getD "unknown"
          statusCode := r.statusCode.getD "unknown"
          isAnomaly := decide (ensembleScore > 1/2)
          ensembleScore := ensembleScore
          riskLevel := inferenceRiskLevel ensembleScore
          individualPredictions := preds
          individualScores := scores }

/-- The key list of the dict `score_record` returns on success. -/
def normalResultKeys : List String :=
  ["timestamp", "client_ip", "url_path", "status_code", "is_anomaly",
   "ensemble_score", "risk_level", "individual_predictions",
   "individual_scores"]

/-- The keys of the dict an outcome of `score_record` stands for. -/
def outcomeKeys : ScoreOutcome → List String
  | .ok _ => normalResultKeys
  | .err _ _ => ["error", "timestamp"]

/-- The `timestamp` entry of either result dict of `score_record`. -/
def outcomeTimestamp : ScoreOutcome → Nat
  | .ok res => res.timestamp
  | .err _ ts => ts

/-- Whether an outcome of `score_record` is the error dict. -/
def outcomeIsError : ScoreOutcome → Bool
  | .ok _ => false
  | .err _ _ => true

/-! ## Watermark loop of monitor_new_logs (realtime_ml_inference.py) -/

/-- Whether `score_record` succeeds on `r` (`'error' not in result`). -/
def isOkRecord (m : InfModels) (sc : Option Scaler) (now : Nat)
    (r : InfRecord) : Bool :=
  !(outcomeIsError (scoreRecord m sc r now))

/-- The per-event body of the `monitor_new_logs` loop: on a successful
result the watermark `last_processed_timestamp` is set to the result's
timestamp; on an error result it is left unchanged (only the error is
printed). -/
def stepEvent (m : InfModels) (sc : Option Scaler) (now : Nat)
    (w : Option Nat) (r : InfRecord) : Option Nat :=
  match scoreRecord m sc r now with
  | .ok res => some res.timestamp
  | .err _ _ => w

/-- One monitoring cycle over the batch of hits, already reversed into
chronological order (`for hit in reversed(hits)`). -/
def processBatch (m : InfModels) (sc : Option Scaler) (now : Nat)
    (w : Option Nat) (recs : List InfRecord) : Option Nat :=
  recs.foldl (stepEvent m sc now) w

/-- The event-source query contract for one cycle with entry watermark `w`:
the hits carry `@timestamp` values, are chronologically ordered after the
reversal, and — via the `range`/`gt` filter — all lie strictly above the
watermark. -/
def batchContract (now : Nat) (w : Option Nat) (recs : List InfRecord) : Prop :=
  (∀ r ∈ recs, r.timestamp.isSome = true) ∧
  (∀ r ∈ recs, ∀ v, w = some v → v < r.timestamp.getD now) ∧
  List.Chain' (fun a b : InfRecord => a.timestamp.getD now ≤ b.timestamp.getD now) recs

/-- Watermark comparison lifted to `Option`: an unset watermark is below
everything, a set one must stay set and not decrease. -/
def watermarkLe (w wNew : Option Nat) : Prop :=
  ∀ v, w = some v → ∃ vNew, wNew = some vNew ∧ v ≤ vNew

/-- A run of consecutive monitoring cycles from watermark `w` to `wEnd`,
each cycle's batch satisfying the query contract for its entry watermark. -/
inductive ValidRun (m : InfModels) (sc : Option Scaler) (now : Nat) :
    Option Nat → List (List InfRecord) → Option Nat → Prop where
  | nil (w : Option Nat) : ValidRun m sc now w [] w
  | cons {w : Option Nat} {recs : List InfRecord}
      {rest : List (List InfRecord)} {wEnd : Option Nat}
      (hb : batchContract now w recs)
      (hr : ValidRun m sc now (processBatch m sc now w recs) rest wEnd) :
      ValidRun m sc now w (recs :: rest) wEnd

/-! ## realtime_ml_monitor.py -/

/-- An event timestamp as `engineer_features` decomposes it (and the
wall-clock fallback `datetime.now()`): hour of day and day of week. -/
structure TimeInfo where
  hour : Nat
  weekday : Nat

/-- An event as read by `RealTimeMLMonitor.engineer_features`. -/
structure MonitorEvent where
  timestamp : Option TimeInfo
  httpUserAgent : Option String
  requestMethod : Option String

/-- A loaded label-encoder artifact for `request_method`: `transform`
returns a code or raises (`none`), the raising case falling back to `0`. -/
abbrev MethodEncoder := String → Option ℚ

/-- `RealTimeMLMonitor.engineer_features`: the 13-feature vector; a raising
scaler is caught by the enclosing `try`, which falls back to
`np.zeros((1, 13))`. -/
def monitorEngineerFeatures (le : Option MethodEncoder) (sc : Option Scaler)
    (ev : MonitorEvent) (now : TimeInfo) : List ℚ :=
  let t := ev.timestamp.getD now
  let hourOfDay : ℚ := t.hour
  let dayOfWeek : ℚ := t.weekday
  let isWeekend : ℚ := if 5 ≤ t.weekday then 1 else 0
  let isBusinessHours : ℚ := if 9 ≤ t.hour ∧ t.hour ≤ 17 then 1 else 0
  let isNightTime : ℚ := if 22 ≤ t.hour ∨ t.hour ≤ 6 then 1 else 0
  let ua := ev.httpUserAgent.getD ""
  let ual := pyLower ua
  let isBot : ℚ :=
    if ["bot", "crawler", "spider", "scraper"].any (containsSub ual) then 1 else 0
  let isCurl : ℚ := if containsSub ual "curl" then 1 else 0
  let isMobile : ℚ :=
    if ["mobile", "android", "iphone"].any (containsSub ual) then 1 else 0
  let uaLength : ℚ := ua.length
  let method := ev.requestMethod.getD "GET"
  let isGet : ℚ := if method = "GET" then 1 else 0
  let isPost : ℚ := if method = "POST" then 1 else 0
  let isSuspiciousMethod : ℚ :=
    if method = "PUT" ∨ method = "DELETE" ∨ method = "PATCH"
       ∨ method = "TRACE" ∨ method = "CONNECT" then 1 else 0
  let methodEncoded : ℚ :=
    match le with
    | some f => (f method).getD 0
    | none => 0
  let raw := [hourOfDay, dayOfWeek, isWeekend, isBusinessHours, isNightTime,
              isBot, isCurl, isMobile, uaLength,
              isGet, isPost, isSuspiciousMethod, methodEncoded]
  match sc with
  | none => raw
  | some f =>
    match f raw with
    | .ok v => v
    | .error _ => List.replicate 13 0

/-- The model names `predict_anomaly` dispatches on; a model stored under
any other name matches no branch and yields no prediction entry. -/
inductive DetKind where
  | isolationForest
  | oneClassSvm
  | lofDetector
  | other
deriving DecidableEq

/-- The dict key of a detector kind. -/
def kindName : DetKind → String
  | .isolationForest => "isolation_forest"
  | .oneClassSvm => "one_class_svm"
  | .lofDetector => "lof_detector"
  | .other => "other"

/-- One scoring call of a monitor model: a prediction label and score, or a
raise. -/
inductive MOutcome where
  | ok (pred : Int) (score : ℚ)
  | fail (msg : String)

/-- A loaded monitor model: its dict key kind and its scoring behaviour. -/
abbrev MonitorModel := DetKind × (List ℚ → MOutcome)

/-- One iteration of the model loop in `predict_anomaly`: an unmatched name
produces no entry; the per-model `except` records a raising model as
`predictions[name] = 1` (normal) with `scores[name] = 0.0`. -/
def runMonitorModel (kind : DetKind) (f : List ℚ → MOutcome) (fv : List ℚ) :
    Option (Int × ℚ) :=
  if kind = DetKind.other then none
  else
    match f fv with
    | .ok p s => some (p, s)
    | .fail _ => some (1, 0)

/-- The verdict dict `predict_anomaly` returns. -/
structure MonitorVerdict where
  isAnomaly : Bool
  ensembleScore : ℚ
  riskLevel : String
  modelPredictions : List (String × Int)
  modelScores : List (String × ℚ)
deriving DecidableEq

/-- The risk bands of `predict_anomaly` (`>= 0.75`, `>= 0.5`, `>= 0.25`). -/
def monitorRiskLevel (ensembleScore : ℚ) : String :=
  if 3/4 ≤ ensembleScore then "CRITICAL"
  else if 1/2 ≤ ensembleScore then "HIGH"
  else if 1/4 ≤ ensembleScore then "MEDIUM"
  else "LOW"

/-- The `predictions`/`scores` entries the model loop of `predict_anomaly`
collects for one event. -/
def ensembleEntries (le : Option MethodEncoder) (sc : Option Scaler)
    (models : List MonitorModel) (ev : MonitorEvent) (now : TimeInfo) :
    List (String × Int × ℚ) :=
  models.filterMap
    (fun mm => (runMonitorModel mm.1 mm.2 (monitorEngineerFeatures le sc ev now)).map
      (fun pr => (kindName mm.1, pr)))

/-- The fusion tail of `predict_anomaly`: the majority vote
`anomaly_votes / total_models` (`0` when no model produced a verdict), the
`>` half-count anomaly test, and the risk bands. -/
def fuseVerdict (entries : List (String × Int × ℚ)) : MonitorVerdict :=
  let preds := entries.map (fun e => (e.1, e.2.1))
  let scores := entries.map (fun e => (e.1, e.2.2))
  let votes := (preds.filter (fun p => decide (p.2 = -1))).length
  let total := preds.length
  let ensembleScore : ℚ := if total = 0 then 0 else (votes : ℚ) / (total : ℚ)
  { isAnomaly := decide ((votes : ℚ) > (total : ℚ) / 2)
    ensembleScore := ensembleScore
    riskLevel := monitorRiskLevel ensembleScore
    modelPredictions := preds
    modelScores := scores }

/-- `RealTimeMLMonitor.predict_anomaly`: engineer the features, query every
loaded model (a raising model is defaulted, not excluded), then fuse. -/
def predictAnomaly (le : Option MethodEncoder) (sc : Option Scaler)
    (models : List MonitorModel) (ev : MonitorEvent) (now : TimeInfo) :
    MonitorVerdict :=
  fuseVerdict (ensembleEntries le sc models ev now)

/-! ## LOF normalization in create_ensemble_score (advanced_ml_detector.py) -/

/-- The LOF branch of `create_ensemble_score`:
`scores = 1 / (1 + np.exp(-raw_scores))`, i.e. the logistic sigmoid of the
raw negative-outlier-factor itself.  The exponential is abstracted as the
parameter `e`, used only through its positivity and order. -/
def lofNormalize (e : ℚ → ℚ) (rawScore : ℚ) : ℚ :=
  1 / (1 + e (-rawScore))

/-- Modelled from the spec for comparison: the logistic sigmoid of the
*negated* native score, `1 / (1 + exp(-(-raw)))`. -/
def lofNormalizeSpec (e : ℚ → ℚ) (rawScore : ℚ) : ℚ :=
  1 / (1 + e (- (-rawScore)))

/-- A browsing event whose only risk factor is the substring `script` in
the URL: base risk `0.3`. -/
def lowBandEvent : AlertEvent :=
  { url := some "/script.php", userAgent := some "Mozilla/5.0",
    method := some "GET", statusCode := some 200 }

/-- An event triggering all four deterministic risk factors of
`_calculate_risk_score`: base risk `0.7`. -/
def highRiskEvent : AlertEvent :=
  { url := some "/a?q=union+select", userAgent := some "sqlmap/1.0",
    method := some "PUT", statusCode := some 500 }

/-! ## Theorems -/

/-- Claim C1 (corrected): with default thresholds the classifier assigns
CRITICAL iff `s ≥ 0.9`, HIGH iff `0.7 ≤ s < 0.9`, MEDIUM iff
`0.5 ≤ s < 0.7`, and LOW iff `s < 0.5` — the LOW band has no `0.3` lower
bound; boundary values go to the higher tier (`0.9` is CRITICAL, `0.89999`
is HIGH). -/
theorem getSeverityLevel_default_bands (s : ℚ) :
    (getSeverityLevel defaultThresholds s = "CRITICAL" ↔ 9/10 ≤ s) ∧
    (getSeverityLevel defaultThresholds s = "HIGH" ↔ 7/10 ≤ s ∧ s < 9/10) ∧
    (getSeverityLevel defaultThresholds s = "MEDIUM" ↔ 1/2 ≤ s ∧ s < 7/10) ∧
    (getSeverityLevel defaultThresholds s = "LOW" ↔ s < 1/2) ∧
    getSeverityLevel defaultThresholds (9/10) = "CRITICAL" ∧
    getSeverityLevel defaultThresholds (89999/100000) = "HIGH" := by
  refine ⟨?_, ?_, ?_, ?_,
    by norm_num [getSeverityLevel, defaultThresholds],
    by norm_num [getSeverityLevel, defaultThresholds]⟩ <;>
  · unfold getSeverityLevel defaultThresholds
    split_ifs with h1 h2 h3 <;> simp_all <;>
      first
        | linarith
        | (intro h; linarith)

/-- Claim C1, counterexample: the classifier maps `0.2` to LOW although
`0.2 < 0.3`, so "LOW iff `0.3 ≤ s < 0.5`" is false as stated. -/
theorem getSeverityLevel_low_below_band :
    getSeverityLevel defaultThresholds (1/5) = "LOW" ∧ ¬(3/10 ≤ (1/5 : ℚ)) := by
  norm_num [getSeverityLevel, defaultThresholds]

/-- Claim C9 (amended): `check_ml_anomalies` creates an anomaly record
exactly when the risk score reaches the MEDIUM threshold (default `0.5`);
with default thresholds no created record carries tier LOW, so the LOW band
`[0.3, 0.5)` produces no alert. -/
theorem alert_created_iff_medium (e : AlertEvent) (r : ℚ) :
    ((alertBody defaultThresholds (e, r)).isSome ↔
      1/2 ≤ calcRiskScore e r) ∧
    (∀ a, alertBody defaultThresholds (e, r) = some a → a.2 ≠ "LOW") ∧
    checkMlAnomalies defaultThresholds [(e, r)] =
      (alertBody defaultThresholds (e, r)).toList := by
  have key : alertBody defaultThresholds (e, r) =
      if (1:ℚ)/2 ≤ calcRiskScore e r then
        some (calcRiskScore e r,
          getSeverityLevel defaultThresholds (calcRiskScore e r))
      else none := rfl
  refine ⟨?_, ?_, ?_⟩
  · rw [key]
    split_ifs with h <;> simp [h] <;> linarith
  · intro a ha
    rw [key] at ha
    by_cases h : (1:ℚ)/2 ≤ calcRiskScore e r
    · rw [if_pos h] at ha
      cases ha
      unfold getSeverityLevel defaultThresholds
      split_ifs <;> simp_all
    · rw [if_neg h] at ha
      cases ha
  · cases h : alertBody defaultThresholds (e, r) <;>
      simp [checkMlAnomalies, h]

/-- Claim C9, counterexample: a GET of `/script.php` with status 200 and a
browser user agent, with random draw `0.1`, has risk score `0.4` — inside
the claimed LOW band `[0.3, 0.5)` — yet `check_ml_anomalies` creates no
anomaly record for it. -/
theorem lowBand_creates_no_alert :
    calcRiskScore lowBandEvent (1/10) = 2/5 ∧
    3/10 ≤ (2/5 : ℚ) ∧ (2/5 : ℚ) < 1/2 ∧
    checkMlAnomalies defaultThresholds [(lowBandEvent, 1/10)] = [] := by
  have hr : calcRiskScore lowBandEvent (1/10) =
      min ((3:ℚ)/10 + 0 + 0 + 0 + 1/10) 1 := rfl
  have hr2 : calcRiskScore lowBandEvent (1/10) = 2/5 := by
    rw [hr, min_eq_left (by norm_num)]; norm_num
  have key : alertBody defaultThresholds (lowBandEvent, 1/10) =
      if (1:ℚ)/2 ≤ calcRiskScore lowBandEvent (1/10) then
        some (calcRiskScore lowBandEvent (1/10),
          getSeverityLevel defaultThresholds (calcRiskScore lowBandEvent (1/10)))
      else none := rfl
  refine ⟨hr2, by norm_num, by norm_num, ?_⟩
  have hnone : alertBody defaultThresholds (lowBandEvent, 1/10) = none := by
    rw [key, hr2]; norm_num
  simp only [checkMlAnomalies, List.filterMap_cons, List.filterMap_nil, hnone]

/-- Claim C9, witness: a PUT of `/a?q=union+select` with status 500 from
`sqlmap` and draw `0` has risk score `0.7 ≥ 0.5`, so a record is created
and its tier (HIGH) is not LOW. -/
theorem alert_created_iff_medium_witness :
    ((alertBody defaultThresholds (highRiskEvent, 0)).isSome ↔
      1/2 ≤ calcRiskScore highRiskEvent 0) ∧
    (∀ a, alertBody defaultThresholds (highRiskEvent, 0) = some a →
      a.2 ≠ "LOW") ∧
    checkMlAnomalies defaultThresholds [(highRiskEvent, 0)] =
      (alertBody defaultThresholds (highRiskEvent, 0)).toList :=
  alert_created_iff_medium highRiskEvent 0

/-- A well-formed record (its `method` key present) with timestamp 10. -/
def okRec : InfRecord :=
  { method := some "GET", url := none, urlPath := none, status := none,
    size := none, riskScore := none, responseTime := none,
    timestamp := some 10, clientIp := none, statusCode := none }

/-- No optimized model artifacts loaded. -/
def noModels : InfModels :=
  { isolationForest := none, oneClassSvm := none, lofDetector := none }

/-- What `score_record` returns on `okRec` with no models loaded. -/
def demoRes : ScoreResult :=
  { timestamp := 10, clientIp := "unknown", urlPath := "unknown",
    statusCode := "unknown", isAnomaly := decide ((0:ℚ) > 1/2),
    ensembleScore := 0, riskLevel := inferenceRiskLevel 0,
    individualPredictions := [], individualScores := [] }

/-- Claim C6, counterexample: `_calculate_risk_score` adds
`random.uniform(0, 0.4)`; for the same event, the legitimate draws `0` and
`0.25` give risk scores `0.3` and `0.55` and severities LOW and MEDIUM, so
scoring the same record twice is not deterministic. -/
theorem calcRiskScore_random_nondeterminism :
    (0:ℚ) ≤ 0 ∧ (0:ℚ) ≤ 2/5 ∧ (0:ℚ) ≤ 1/4 ∧ (1/4:ℚ) ≤ 2/5 ∧
    calcRiskScore lowBandEvent 0 ≠ calcRiskScore lowBandEvent (1/4) ∧
    getSeverityLevel defaultThresholds (calcRiskScore lowBandEvent 0) ≠
      getSeverityLevel defaultThresholds (calcRiskScore lowBandEvent (1/4)) := by
  have h0 : calcRiskScore lowBandEvent 0 =
      min ((3:ℚ)/10 + 0 + 0 + 0 + 0) 1 := rfl
  have h1 : calcRiskScore lowBandEvent (1/4) =
      min ((3:ℚ)/10 + 0 + 0 + 0 + 1/4) 1 := rfl
  have e0 : calcRiskScore lowBandEvent 0 = 3/10 := by
    rw [h0, min_eq_left (by norm_num)]; norm_num
  have e1 : calcRiskScore lowBandEvent (1/4) = 11/20 := by
    rw [h1, min_eq_left (by norm_num)]; norm_num
  refine ⟨le_refl 0, by norm_num, by norm_num, by norm_num, ?_, ?_⟩
  · rw [e0, e1]; norm_num
  · rw [e0, e1]
    norm_num [getSeverityLevel, defaultThresholds]
    decide

/-- Claim C6 (amended): `score_record` itself is deterministic up to the
wall clock — for the same record, scaler and model artifacts, the
per-detector predictions and scores, the fused ensemble score, the risk
level and the anomaly flag of two successful runs coincide; only
`_calculate_risk_score` of the alerting system is randomized. -/
theorem scoreRecord_wallclock_independent (m : InfModels) (sc : Option Scaler)
    (r : InfRecord) (now1 now2 : Nat) (res1 res2 : ScoreResult)
    (h1 : scoreRecord m sc r now1 = .ok res1)
    (h2 : scoreRecord m sc r now2 = .ok res2) :
    res1.individualPredictions = res2.individualPredictions ∧
    res1.individualScores = res2.individualScores ∧
    res1.ensembleScore = res2.ensembleScore ∧
    res1.riskLevel = res2.riskLevel ∧
    res1.isAnomaly = res2.isAnomaly := by
  unfold scoreRecord at h1 h2
  cases hc : scoreRecordCore m sc r with
  | error e =>
    rw [hc] at h1
    simp at h1
  | ok pr =>
    obtain ⟨preds, scores⟩ := pr
    rw [hc] at h1 h2
    simp only [ScoreOutcome.ok.injEq] at h1 h2
    subst h1
    subst h2
    exact ⟨rfl, rfl, rfl, rfl, rfl⟩

/-- Claim C6, witness: with no models loaded, scoring `okRec` at wall
clocks `0` and `1` yields identical verdict fields. -/
theorem scoreRecord_wallclock_witness :
    demoRes.individualPredictions = demoRes.individualPredictions ∧
    demoRes.individualScores = demoRes.individualScores ∧
    demoRes.ensembleScore = demoRes.ensembleScore ∧
    demoRes.riskLevel = demoRes.riskLevel ∧
    demoRes.isAnomaly = demoRes.isAnomaly :=
  scoreRecord_wallclock_independent noModels none okRec 0 1 demoRes demoRes
    rfl rfl

/-- A benign monitor event. -/
def monEvent : MonitorEvent :=
  { timestamp := some { hour := 12, weekday := 2 },
    httpUserAgent := some "Mozilla/5.0", requestMethod := some "GET" }

/-- A detector whose scoring always raises. -/
def failF : List ℚ → MOutcome := fun _ => MOutcome.fail "boom"

/-- A detector that always reports anomalous (prediction `-1`). -/
def anomF : List ℚ → MOutcome := fun _ => MOutcome.ok (-1) (-1/2)

/-- One anomalous isolation forest plus one raising one-class SVM. -/
def failingPair : List MonitorModel :=
  [(DetKind.isolationForest, anomF), (DetKind.oneClassSvm, failF)]

/-- The number of anomaly votes a verdict's prediction entries carry. -/
def anomalyVotes (v : MonitorVerdict) : Nat :=
  (v.modelPredictions.filter (fun p => decide (p.2 = -1))).length

/-- The number of detectors with a prediction entry in a verdict. -/
def verdictCount (v : MonitorVerdict) : Nat :=
  v.modelPredictions.length

/-- Claim C2, counterexample: with one always-anomalous isolation forest
and one raising one-class SVM, `predict_anomaly` records the raising
detector as a normal vote and fuses `1/2`, not the `1/1 = 1` that exclusion
from numerator and denominator would give. -/
theorem failed_detector_not_excluded :
    (predictAnomaly none none failingPair monEvent
        { hour := 0, weekday := 0 }).modelPredictions
      = [("isolation_forest", -1), ("one_class_svm", 1)] ∧
    (predictAnomaly none none failingPair monEvent
        { hour := 0, weekday := 0 }).ensembleScore = 1/2 ∧
    ((1:ℚ)/2) ≠ 1 := by
  have hE : ensembleEntries none none failingPair monEvent
      { hour := 0, weekday := 0 }
      = [("isolation_forest", ((-1 : Int), (-1/2 : ℚ))),
         ("one_class_svm", ((1 : Int), (0 : ℚ)))] := rfl
  refine ⟨?_, ?_, by norm_num⟩
  · rw [predictAnomaly, hE]; rfl
  · rw [predictAnomaly, hE]
    have : (fuseVerdict [("isolation_forest", ((-1 : Int), (-1/2 : ℚ))),
        ("one_class_svm", ((1 : Int), (0 : ℚ)))]).ensembleScore
        = ((1:ℕ) : ℚ) / ((2:ℕ) : ℚ) := rfl
    rw [this]; norm_num

/-- Claim C2 (amended): a detector that raises during `predict_anomaly` is
not excluded — the per-model `except` records it with the default normal
verdict (prediction `1`, score `0.0`), so it enters the vote denominator
but never the numerator, and the event's scoring continues (never aborts
the pipeline). -/
theorem throwing_detector_counts_normal (le : Option MethodEncoder)
    (sc : Option Scaler) (models : List MonitorModel) (ev : MonitorEvent)
    (now : TimeInfo) (kind : DetKind) (f : List ℚ → MOutcome) (msg : String)
    (hk : kind ≠ DetKind.other) (hf : ∀ v, f v = MOutcome.fail msg) :
    (predictAnomaly le sc ((kind, f) :: models) ev now).modelPredictions
      = (kindName kind, 1) ::
        (predictAnomaly le sc models ev now).modelPredictions ∧
    anomalyVotes (predictAnomaly le sc ((kind, f) :: models) ev now)
      = anomalyVotes (predictAnomaly le sc models ev now) ∧
    verdictCount (predictAnomaly le sc ((kind, f) :: models) ev now)
      = verdictCount (predictAnomaly le sc models ev now) + 1 ∧
    (predictAnomaly le sc ((kind, f) :: models) ev now).ensembleScore
      = (anomalyVotes (predictAnomaly le sc models ev now) : ℚ) /
        ((verdictCount (predictAnomaly le sc models ev now) + 1 : ℕ) : ℚ) := by
  have hrun : runMonitorModel kind f (monitorEngineerFeatures le sc ev now)
      = some (1, 0) := by
    unfold runMonitorModel
    rw [if_neg hk, hf]
  have hE : ensembleEntries le sc ((kind, f) :: models) ev now
      = (kindName kind, ((1 : Int), (0 : ℚ))) ::
        ensembleEntries le sc models ev now := by
    unfold ensembleEntries
    rw [List.filterMap_cons, hrun]
    rfl
  refine ⟨?_, ?_, ?_, ?_⟩ <;>
    simp only [predictAnomaly, anomalyVotes, verdictCount, hE] <;> rfl

/-- A single loaded, always-anomalous isolation forest. -/
def baseModels : List MonitorModel := [(DetKind.isolationForest, anomF)]

/-- Claim C2, witness: adding a raising one-class SVM to one anomalous
isolation forest keeps the vote numerator and grows the denominator. -/
theorem throwing_detector_counts_normal_witness :
    (predictAnomaly none none ((DetKind.oneClassSvm, failF) :: baseModels)
        monEvent { hour := 0, weekday := 0 }).modelPredictions
      = (kindName DetKind.oneClassSvm, 1) ::
        (predictAnomaly none none baseModels monEvent
          { hour := 0, weekday := 0 }).modelPredictions ∧
    anomalyVotes (predictAnomaly none none
        ((DetKind.oneClassSvm, failF) :: baseModels) monEvent
        { hour := 0, weekday := 0 })
      = anomalyVotes (predictAnomaly none none baseModels monEvent
        { hour := 0, weekday := 0 }) ∧
    verdictCount (predictAnomaly none none
        ((DetKind.oneClassSvm, failF) :: baseModels) monEvent
        { hour := 0, weekday := 0 })
      = verdictCount (predictAnomaly none none baseModels monEvent
        { hour := 0, weekday := 0 }) + 1 ∧
    (predictAnomaly none none ((DetKind.oneClassSvm, failF) :: baseModels)
        monEvent { hour := 0, weekday := 0 }).ensembleScore
      = (anomalyVotes (predictAnomaly none none baseModels monEvent
          { hour := 0, weekday := 0 }) : ℚ) /
        ((verdictCount (predictAnomaly none none baseModels monEvent
          { hour := 0, weekday := 0 }) + 1 : ℕ) : ℚ) :=
  throwing_detector_counts_normal none none baseModels monEvent
    { hour := 0, weekday := 0 } DetKind.oneClassSvm failF "boom"
    (by decide) (fun _ => rfl)

/-- A loaded monitor model with a matched name always yields a prediction
entry; only an unmatched name yields none. -/
theorem runMonitorModel_eq_none_iff (kind : DetKind) (f : List ℚ → MOutcome)
    (fv : List ℚ) :
    runMonitorModel kind f fv = none ↔ kind = DetKind.other := by
  unfold runMonitorModel
  split_ifs with h
  · simp [h]
  · cases f fv <;> simp [h]

/-- Unfolding one step of the model loop. -/
theorem ensembleEntries_cons (le : Option MethodEncoder) (sc : Option Scaler)
    (mm : MonitorModel) (models : List MonitorModel) (ev : MonitorEvent)
    (now : TimeInfo) :
    ensembleEntries le sc (mm :: models) ev now =
      match runMonitorModel mm.1 mm.2 (monitorEngineerFeatures le sc ev now) with
      | none => ensembleEntries le sc models ev now
      | some pr => (kindName mm.1, pr) :: ensembleEntries le sc models ev now := by
  unfold ensembleEntries
  rw [List.filterMap_cons]
  cases runMonitorModel mm.1 mm.2 (monitorEngineerFeatures le sc ev now) <;> rfl

/-- The prediction entries of an event are empty exactly when no loaded
model has a matched name. -/
theorem ensembleEntries_eq_nil_iff (le : Option MethodEncoder)
    (sc : Option Scaler) (models : List MonitorModel) (ev : MonitorEvent)
    (now : TimeInfo) :
    ensembleEntries le sc models ev now = [] ↔
      models.filter (fun mm => decide (mm.1 ≠ DetKind.other)) = [] := by
  induction models with
  | nil => simp [ensembleEntries]
  | cons mm rest ih =>
    rw [ensembleEntries_cons, List.filter_cons]
    by_cases h : mm.1 = DetKind.other
    · have hn : runMonitorModel mm.1 mm.2
          (monitorEngineerFeatures le sc ev now) = none :=
        (runMonitorModel_eq_none_iff mm.1 mm.2 _).mpr h
      have hd : (decide (mm.1 ≠ DetKind.other)) = false := by simp [h]
      rw [hn, hd]
      simpa using ih
    · have hs : runMonitorModel mm.1 mm.2
          (monitorEngineerFeatures le sc ev now) ≠ none := by
        intro hc
        exact h ((runMonitorModel_eq_none_iff mm.1 mm.2 _).mp hc)
      obtain ⟨pr, hpr⟩ := Option.ne_none_iff_exists'.mp hs
      have hd : (decide (mm.1 ≠ DetKind.other)) = true := by simp [h]
      rw [hpr, hd]
      simp

/-- Claim C3: when zero detectors produce a verdict the fusion returns
score `0.0` instead of raising (the functions are total), the verdict
classifies LOW and not anomalous, and the degraded state is observable:
the per-detector predictions map carried by the verdict is empty exactly
when no detector contributed.  Both the monitor fuser and the inference
fuser (`score_record` with no loaded artifacts) are covered. -/
theorem zero_detectors_fail_safe :
    (∀ (le : Option MethodEncoder) (sc : Option Scaler)
        (models : List MonitorModel) (ev : MonitorEvent) (now : TimeInfo),
      ((predictAnomaly le sc models ev now).modelPredictions = [] ↔
        models.filter (fun mm => decide (mm.1 ≠ DetKind.other)) = []) ∧
      ((predictAnomaly le sc models ev now).modelPredictions = [] →
        (predictAnomaly le sc models ev now).ensembleScore = 0 ∧
        (predictAnomaly le sc models ev now).riskLevel = "LOW" ∧
        (predictAnomaly le sc models ev now).isAnomaly = false)) ∧
    (∀ (sc : Option Scaler) (r : InfRecord) (now : Nat) (res : ScoreResult),
      scoreRecord noModels sc r now = .ok res →
        res.ensembleScore = 0 ∧ res.individualPredictions = [] ∧
        res.riskLevel = "LOW" ∧ res.isAnomaly = false) := by
  constructor
  · intro le sc models ev now
    have hpreds : (predictAnomaly le sc models ev now).modelPredictions
        = (ensembleEntries le sc models ev now).map (fun e => (e.1, e.2.1)) :=
      rfl
    constructor
    · rw [hpreds, List.map_eq_nil_iff]
      exact ensembleEntries_eq_nil_iff le sc models ev now
    · intro h
      have hE : ensembleEntries le sc models ev now = [] := by
        rw [hpreds, List.map_eq_nil_iff] at h
        exact h
      have hfv : predictAnomaly le sc models ev now = fuseVerdict [] := by
        rw [predictAnomaly, hE]
      rw [hfv]
      refine ⟨rfl, ?_, ?_⟩
      · show monitorRiskLevel 0 = "LOW"
        norm_num [monitorRiskLevel]
      · show decide (((0:ℕ) : ℚ) > ((0:ℕ) : ℚ) / 2) = false
        rw [decide_eq_false_iff_not]
        norm_num
  · intro sc r now res h
    unfold scoreRecord at h
    cases hp : prepareFeatureVector sc r with
    | error e =>
      have hcore : scoreRecordCore noModels sc r = .error e := by
        unfold scoreRecordCore
        rw [hp]
      rw [hcore] at h
      simp at h
    | ok fv =>
      have hcore : scoreRecordCore noModels sc r = .ok ([], []) := by
        unfold scoreRecordCore namedBranch noModels
        rw [hp]
        rfl
      rw [hcore] at h
      simp only [ScoreOutcome.ok.injEq] at h
      subst h
      refine ⟨rfl, rfl, ?_, ?_⟩
      · show inferenceRiskLevel 0 = "LOW"
        norm_num [inferenceRiskLevel]
      · show decide ((0:ℚ) > 1/2) = false
        rw [decide_eq_false_iff_not]
        norm_num

/-- Claim C3, witness: zero loaded monitor models and zero loaded inference
artifacts both fuse to score `0`, LOW, not anomalous, with empty
per-detector maps. -/
theorem zero_detectors_fail_safe_witness :
    ((predictAnomaly none none [] monEvent
        { hour := 0, weekday := 0 }).ensembleScore = 0 ∧
     (predictAnomaly none none [] monEvent
        { hour := 0, weekday := 0 }).riskLevel = "LOW" ∧
     (predictAnomaly none none [] monEvent
        { hour := 0, weekday := 0 }).isAnomaly = false) ∧
    (demoRes.ensembleScore = 0 ∧ demoRes.individualPredictions = [] ∧
     demoRes.riskLevel = "LOW" ∧ demoRes.isAnomaly = false) :=
  ⟨(zero_detectors_fail_safe.1 none none [] monEvent
      { hour := 0, weekday := 0 }).2 rfl,
   zero_detectors_fail_safe.2 none okRec 0 demoRes rfl⟩

/-- A successful `score_record` result carries the record's `@timestamp`
(or the wall clock when absent). -/
theorem scoreRecord_ok_timestamp {m : InfModels} {sc : Option Scaler}
    {r : InfRecord} {now : Nat} {res : ScoreResult}
    (h : scoreRecord m sc r now = .ok res) :
    res.timestamp = r.timestamp.getD now := by
  unfold scoreRecord at h
  cases hc : scoreRecordCore m sc r with
  | error e =>
    rw [hc] at h
    simp at h
  | ok pr =>
    obtain ⟨preds, scores⟩ := pr
    rw [hc] at h
    simp only [ScoreOutcome.ok.injEq] at h
    subst h
    rfl

/-- A successfully scored event advances the watermark to its timestamp. -/
theorem stepEvent_of_ok {m : InfModels} {sc : Option Scaler} {now : Nat}
    {r : InfRecord} (w : Option Nat) (h : isOkRecord m sc now r = true) :
    stepEvent m sc now w r = some (r.timestamp.getD now) := by
  unfold isOkRecord at h
  cases hs : scoreRecord m sc r now with
  | ok res =>
    unfold stepEvent
    rw [hs]
    show some res.timestamp = some (r.timestamp.getD now)
    rw [scoreRecord_ok_timestamp hs]
  | err msg ts =>
    rw [hs] at h
    simp [outcomeIsError] at h

/-- An event whose scoring errors leaves the watermark unchanged. -/
theorem stepEvent_of_not_ok {m : InfModels} {sc : Option Scaler} {now : Nat}
    {r : InfRecord} (w : Option Nat) (h : isOkRecord m sc now r = false) :
    stepEvent m sc now w r = w := by
  unfold isOkRecord at h
  cases hs : scoreRecord m sc r now with
  | ok res =>
    rw [hs] at h
    simp [outcomeIsError] at h
  | err msg ts =>
    unfold stepEvent
    rw [hs]

/-- After one cycle the watermark equals the timestamp of the last
successfully scored event of the batch, or stays where it was when none
succeeded. -/
theorem processBatch_eq_lastOk (m : InfModels) (sc : Option Scaler)
    (now : Nat) (w : Option Nat) (recs : List InfRecord) :
    processBatch m sc now w recs =
      match (recs.filter (isOkRecord m sc now)).getLast? with
      | some r => some (r.timestamp.getD now)
      | none => w := by
  induction recs generalizing w with
  | nil => rfl
  | cons r rest ih =>
    have hstep : processBatch m sc now w (r :: rest)
        = processBatch m sc now (stepEvent m sc now w r) rest := rfl
    rw [hstep, ih]
    cases hok : isOkRecord m sc now r with
    | true =>
      rw [List.filter_cons_of_pos hok]
      cases hl : rest.filter (isOkRecord m sc now) with
      | nil =>
        rw [stepEvent_of_ok w hok]
        rfl
      | cons a l =>
        rw [List.getLast?_cons_cons]
        obtain ⟨b, hb⟩ : ∃ b, (a :: l).getLast? = some b :=
          ⟨(a :: l).getLast (by simp),
           List.getLast?_eq_getLast_of_ne_nil (by simp)⟩
        rw [hb]
    | false =>
      rw [List.filter_cons_of_neg (by simp [hok]), stepEvent_of_not_ok w hok]

/-- Under the query contract, one cycle never moves the watermark
backward. -/
theorem processBatch_monotone {m : InfModels} {sc : Option Scaler}
    {now : Nat} {w : Option Nat} {recs : List InfRecord}
    (hb : batchContract now w recs) :
    watermarkLe w (processBatch m sc now w recs) := by
  intro v hv
  rw [processBatch_eq_lastOk]
  cases hl : (recs.filter (isOkRecord m sc now)).getLast? with
  | none => exact ⟨v, hv, le_refl v⟩
  | some r =>
    refine ⟨r.timestamp.getD now, rfl, ?_⟩
    have hr : r ∈ recs :=
      List.mem_of_mem_filter (List.mem_of_mem_getLast? hl)
    exact le_of_lt (hb.2.1 r hr v hv)

/-- Claim C4: across a run of monitoring cycles whose batches satisfy the
event-source query contract (timestamps present, ascending, strictly above
the entry watermark), the watermark never moves backward, and it ends at
the timestamp of the last successfully processed event of the run (or
where it started if no event was processed successfully). -/
theorem watermark_monotone_lastOk (m : InfModels) (sc : Option Scaler)
    (now : Nat) (w : Option Nat) (batches : List (List InfRecord))
    (wEnd : Option Nat) (h : ValidRun m sc now w batches wEnd) :
    watermarkLe w wEnd ∧
    wEnd = (match ((batches.flatten).filter (isOkRecord m sc now)).getLast? with
            | some r => some (r.timestamp.getD now)
            | none => w) := by
  induction h with
  | nil w => exact ⟨fun v hv => ⟨v, hv, le_refl v⟩, by simp⟩
  | cons hb hr ih =>
    constructor
    · intro v hv
      obtain ⟨v1, hv1, hle1⟩ := processBatch_monotone hb v hv
      obtain ⟨v2, hv2, hle2⟩ := ih.1 v1 hv1
      exact ⟨v2, hv2, le_trans hle1 hle2⟩
    · rw [ih.2, List.flatten_cons, List.filter_append]
      cases hfl : (List.filter (isOkRecord m sc now) (List.flatten _)) with
      | nil =>
        rw [List.append_nil, processBatch_eq_lastOk]
        rfl
      | cons a l =>
        rw [List.getLast?_append_of_ne_nil _ (by simp)]
        obtain ⟨b, hb2⟩ : ∃ b, (a :: l).getLast? = some b :=
          ⟨(a :: l).getLast (by simp),
           List.getLast?_eq_getLast_of_ne_nil (by simp)⟩
        rw [hb2]

/-- Claim C4, witness: one valid cycle over the single event `okRec`
(timestamp 10) moves the watermark from 5 to 10. -/
theorem watermark_monotone_lastOk_witness :
    watermarkLe (some 5) (some 10) ∧
    (some 10 : Option Nat) =
      (match (([[okRec]].flatten).filter
          (isOkRecord noModels none 0)).getLast? with
       | some r => some (r.timestamp.getD 0)
       | none => some 5) := by
  have hb : batchContract 0 (some 5) [okRec] := by
    refine ⟨?_, ?_, ?_⟩
    · intro r hr
      simp only [List.mem_singleton] at hr
      subst hr
      rfl
    · intro r hr v hv
      simp only [List.mem_singleton] at hr
      subst hr
      cases hv
      show (5:ℕ) < 10
      norm_num
    · simp
  exact watermark_monotone_lastOk noModels none 0 (some 5) [[okRec]]
    (some 10) (ValidRun.cons hb (ValidRun.nil (some 10)))

/-- A record with no `method` key and timestamp 10: scoring it fails. -/
def badRec : InfRecord :=
  { method := none, url := some "/index.html", urlPath := none,
    status := none, size := none, riskScore := none, responseTime := none,
    timestamp := some 10, clientIp := none, statusCode := none }

/-- Claim C8 (amended): when an event's scoring fails, the event is
skipped (the loop continues) but the watermark is left unchanged — it does
not advance past the failed event, which therefore still matches the next
cycle's strictly-greater timestamp filter and is fetched again, unless a
later successful event in the same batch moves the watermark past it. -/
theorem failed_event_keeps_watermark (m : InfModels) (sc : Option Scaler)
    (now : Nat) (w : Option Nat) (r : InfRecord)
    (h : isOkRecord m sc now r = false) :
    stepEvent m sc now w r = w ∧ processBatch m sc now w [r] = w := by
  have h1 := stepEvent_of_not_ok w h
  exact ⟨h1, h1⟩

/-- Claim C8, counterexample: scoring the method-less record `badRec`
(timestamp 10) fails; a cycle holding only it leaves the watermark at 5,
which stays strictly below 10, so the next strictly-greater poll fetches
the event again — the watermark did not "advance past the failed event". -/
theorem failed_event_watermark_not_advanced :
    isOkRecord noModels none 0 badRec = false ∧
    processBatch noModels none 0 (some 5) [badRec] = some 5 ∧
    5 < badRec.timestamp.getD 0 :=
  ⟨rfl, rfl, by decide⟩

/-- Claim C8, witness: the failed `badRec` leaves the watermark at 5. -/
theorem failed_event_keeps_watermark_witness :
    stepEvent noModels none 0 (some 5) badRec = some 5 ∧
    processBatch noModels none 0 (some 5) [badRec] = some 5 :=
  failed_event_keeps_watermark noModels none 0 (some 5) badRec rfl

/-- Whether the detector loop of `score_record` raised internally. -/
def coreFails (m : InfModels) (sc : Option Scaler) (r : InfRecord) : Bool :=
  match scoreRecordCore m sc r with
  | .error _ => true
  | .ok _ => false

/-- Claim C10: `score_record` is total — every call returns a dict; both
the normal dict and the error dict carry the record's timestamp (wall
clock when absent); the returned dict is the `{'error', 'timestamp'}` dict
exactly when feature preparation or a model raised internally; in
particular a record with no `method` key yields the error dict. -/
theorem scoreRecord_total_error_dict (m : InfModels) (sc : Option Scaler)
    (r : InfRecord) (now : Nat) :
    outcomeTimestamp (scoreRecord m sc r now) = r.timestamp.getD now ∧
    (outcomeKeys (scoreRecord m sc r now) = ["error", "timestamp"] ∨
     outcomeKeys (scoreRecord m sc r now) = normalResultKeys) ∧
    outcomeIsError (scoreRecord m sc r now) = coreFails m sc r ∧
    (outcomeIsError (scoreRecord m sc r now) = true ↔
      outcomeKeys (scoreRecord m sc r now) = ["error", "timestamp"]) ∧
    (r.method = none → outcomeIsError (scoreRecord m sc r now) = true) := by
  have hts : outcomeTimestamp (scoreRecord m sc r now) = r.timestamp.getD now := by
    cases hs : scoreRecord m sc r now with
    | ok res =>
      show res.timestamp = _
      exact scoreRecord_ok_timestamp hs
    | err msg ts =>
      show ts = _
      unfold scoreRecord at hs
      cases hc : scoreRecordCore m sc r with
      | error e =>
        rw [hc] at hs
        simp only [ScoreOutcome.err.injEq] at hs
        exact hs.2.symm
      | ok pr =>
        obtain ⟨preds, scores⟩ := pr
        rw [hc] at hs
        simp at hs
  have hcf : outcomeIsError (scoreRecord m sc r now) = coreFails m sc r := by
    unfold scoreRecord coreFails
    cases scoreRecordCore m sc r with
    | error e => rfl
    | ok pr =>
      obtain ⟨preds, scores⟩ := pr
      rfl
  have hkeys : outcomeIsError (scoreRecord m sc r now) = true ↔
      outcomeKeys (scoreRecord m sc r now) = ["error", "timestamp"] := by
    cases scoreRecord m sc r now with
    | ok res => simp [outcomeIsError, outcomeKeys, normalResultKeys]
    | err msg ts => simp [outcomeIsError, outcomeKeys]
  refine ⟨hts, ?_, hcf, hkeys, ?_⟩
  · cases scoreRecord m sc r now with
    | ok res => exact Or.inr rfl
    | err msg ts => exact Or.inl rfl
  · intro hm
    have h1 : engineerFeaturesSingleRecord r
        = .error "AttributeError: str object has no attribute map" := by
      unfold engineerFeaturesSingleRecord
      rw [hm]
    have h2 : prepareFeatureVector sc r
        = .error "AttributeError: str object has no attribute map" := by
      unfold prepareFeatureVector
      rw [h1]
    have h3 : scoreRecordCore m sc r
        = .error "AttributeError: str object has no attribute map" := by
      unfold scoreRecordCore
      rw [h2]
    unfold scoreRecord
    rw [h3]
    rfl

/-- Claim C10, witness: the method-less `badRec` produces the error dict
with the record's timestamp. -/
theorem scoreRecord_total_error_dict_witness :
    outcomeIsError (scoreRecord noModels none badRec 0) = true ∧
    outcomeTimestamp (scoreRecord noModels none badRec 0) = 10 :=
  ⟨(scoreRecord_total_error_dict noModels none badRec 0).2.2.2.2 rfl,
   (scoreRecord_total_error_dict noModels none badRec 0).1⟩

/-- Claim C7: the inference feature engineer raises on a record with no
`method` key (pandas `df.get('method', 'GET')` yields the plain string,
whose `.map` raises `AttributeError`), so it is not total; with `method`
present it always returns the 9-feature vector, and the monitor's
`engineer_features` always returns its 13-feature vector. -/
theorem featureEngineer_missing_method_raises :
    engineerFeaturesSingleRecord badRec
      = .error "AttributeError: str object has no attribute map" ∧
    (∀ (r : InfRecord) (s : String),
      ∃ v, engineerFeaturesSingleRecord { r with method := some s } = .ok v ∧
        v.length = 9) ∧
    (∀ (le : Option MethodEncoder) (ev : MonitorEvent) (now : TimeInfo),
      (monitorEngineerFeatures le none ev now).length = 13) := by
  refine ⟨rfl, ?_, ?_⟩
  · intro r s
    exact ⟨_, rfl, rfl⟩
  · intro le ev now
    rfl

/-- A concrete function with the order and positivity of the exponential
at the sample points: positive everywhere and increasing at the arguments
used below. -/
def expDemo : ℚ → ℚ := fun q => if q ≤ 0 then 1 / (1 - q) else q + 1

/-- Claim C5: the code normalizes a LOF raw score `x` to
`1 / (1 + exp(-x))` — the sigmoid of the score itself, not of its
negation.  For any `exp` with the positivity and order of the real
exponential, the value does lie in `(0, 1)`, but the map is increasing in
the raw score: the more anomalous raw score `-2` is sent *below* the more
normal `-1`, the opposite of the claimed polarity, and differs from the
spec's sigmoid-of-negated-score. -/
theorem lofNormalize_polarity (e : ℚ → ℚ) (hpos : ∀ x, 0 < e x)
    (h12 : e 1 < e 2) (hn2 : e (-2) < e (-1)) (hn1 : e (-1) < e 1) :
    lofNormalize e (-2) < lofNormalize e (-1) ∧
    0 < lofNormalize e (-2) ∧ lofNormalize e (-2) < 1 ∧
    lofNormalizeSpec e (-1) < lofNormalizeSpec e (-2) ∧
    lofNormalize e (-2) ≠ lofNormalizeSpec e (-2) := by
  have a2 : lofNormalize e (-2) = 1 / (1 + e 2) := by norm_num [lofNormalize]
  have a1 : lofNormalize e (-1) = 1 / (1 + e 1) := by norm_num [lofNormalize]
  have b2 : lofNormalizeSpec e (-2) = 1 / (1 + e (-2)) := by
    norm_num [lofNormalizeSpec]
  have b1 : lofNormalizeSpec e (-1) = 1 / (1 + e (-1)) := by
    norm_num [lofNormalizeSpec]
  have p1 : (0:ℚ) < 1 + e 1 := by linarith [hpos 1]
  have p2 : (0:ℚ) < 1 + e 2 := by linarith [hpos 2]
  have pn1 : (0:ℚ) < 1 + e (-1) := by linarith [hpos (-1)]
  have pn2 : (0:ℚ) < 1 + e (-2) := by linarith [hpos (-2)]
  refine ⟨?_, ?_, ?_, ?_, ?_⟩
  · rw [a2, a1]
    exact one_div_lt_one_div_of_lt p1 (by linarith)
  · rw [a2]
    exact one_div_pos.mpr p2
  · rw [a2, div_lt_one p2]
    linarith [hpos 2]
  · rw [b1, b2]
    exact one_div_lt_one_div_of_lt pn2 (by linarith)
  · rw [a2, b2]
    exact ne_of_lt (one_div_lt_one_div_of_lt pn2 (by linarith))

/-- Claim C5, witness: `expDemo` has the required positivity and order, so
the code's normalization maps the more anomalous `-2` below `-1`. -/
theorem lofNormalize_polarity_witness :
    lofNormalize expDemo (-2) < lofNormalize expDemo (-1) ∧
    0 < lofNormalize expDemo (-2) ∧ lofNormalize expDemo (-2) < 1 ∧
    lofNormalizeSpec expDemo (-1) < lofNormalizeSpec expDemo (-2) ∧
    lofNormalize expDemo (-2) ≠ lofNormalizeSpec expDemo (-2) :=
  lofNormalize_polarity expDemo
    (by
      intro x
      unfold expDemo
      split_ifs with h
      · exact one_div_pos.mpr (by linarith)
      · linarith)
    (by norm_num [expDemo])
    (by norm_num [expDemo])
    (by norm_num [expDemo])
